import Mathlib

/-!
Verification development for the posprinter order-monitoring core.

The definitions below are a shallow embedding of the Python sources:
`src/gui/order_monitor.py`, `src/realtime/supabase_realtime.py`,
`src/printer/receipt_template.py`, `src/printer/com_printer.py`,
`src/printer/escpos_printer.py`, `src/gui/order_widget.py` and
`src/optimized_supabase_client.py`.  Machine-level concerns (HTTP, serial
ports, the CP949 codec table, wall-clock time) are modelled as explicit
parameters or oracles; everything else follows the source line by line.
-/

namespace PosPrinter

/-! ## Scheduler (order_monitor.py) -/

/-- Parameters of `OrderMonitorThread` relevant to interval computation:
`check_interval` (base, default 10), `fast_check_interval` (default 3),
`slow_check_interval` (default 30). -/
structure MonitorParams where
  check_interval : Int
  fast_check_interval : Int
  slow_check_interval : Int
deriving Repr, DecidableEq

/-- Default parameter values set in `OrderMonitorThread.__init__`. -/
def defaultParams : MonitorParams :=
  { check_interval := 10, fast_check_interval := 3, slow_check_interval := 30 }

/-- `set_check_interval` (order_monitor.py lines 49-52):
`self.check_interval = max(3, interval)`. -/
def set_check_interval (interval : Int) : Int := max 3 interval

/-- The `base_interval` local of `_calculate_dynamic_interval`
(order_monitor.py lines 86-89). -/
def base_interval (p : MonitorParams) (auto_print_enabled : Bool) : Int :=
  if auto_print_enabled then p.fast_check_interval else p.check_interval

/-- `_calculate_dynamic_interval` (order_monitor.py lines 80-97).
`auto_print_enabled` selects the fast interval as base, otherwise
`check_interval`; more than 10 consecutive empty checks gives
`min(slow, base*2)`, more than 5 gives `base + 5`, else `base`. -/
def calculate_dynamic_interval (p : MonitorParams) (auto_print_enabled : Bool)
    (consecutive_empty_checks : Nat) : Int :=
  let base_interval :=
    if auto_print_enabled then p.fast_check_interval else p.check_interval
  if consecutive_empty_checks > 10 then
    min p.slow_check_interval (base_interval * 2)
  else if consecutive_empty_checks > 5 then
    base_interval + 5
  else
    base_interval

/-- The empty-check counter update done by `_check_and_process_orders`
(order_monitor.py lines 122-141): reset to 0 when new orders were found,
otherwise incremented. -/
def update_empty_checks (found_orders : Bool) (consecutive_empty_checks : Nat) : Nat :=
  if found_orders then 0 else consecutive_empty_checks + 1

/-! ## Auto-print outcome reduction (order_monitor.py / supabase_realtime.py) -/

/-- The per-sink result map returned by `PrinterManager.print_both_receipts`,
as read by both callers: `results.get("customer", False)` and
`results.get("kitchen", False)`. -/
structure PrintResults where
  customer : Bool
  kitchen : Bool
deriving Repr, DecidableEq

/-- The reduction in the polling monitor `_execute_auto_print`
(order_monitor.py lines 289-304): `overall_success = customer_success or
kitchen_success`. -/
def polling_overall_success (r : PrintResults) : Bool :=
  r.customer || r.kitchen

/-- The reduction in the realtime monitor `_execute_auto_print`
(supabase_realtime.py lines 355-358): `return results.get("customer", False)`. -/
def realtime_overall_success (r : PrintResults) : Bool :=
  r.customer

/-- `_process_auto_print_orders` (order_monitor.py lines 233-237) marks an
order printed exactly when `_execute_auto_print` returned success. -/
def polling_marks_printed (r : PrintResults) : Bool :=
  polling_overall_success r

/-- The realtime print worker (supabase_realtime.py lines 307-311) marks an
order printed exactly when its `_execute_auto_print` returned success. -/
def realtime_marks_printed (r : PrintResults) : Bool :=
  realtime_overall_success r

/-! ## Receipt template (receipt_template.py)

Python's `f"{n:,}"` thousands-separated rendering is embedded via
`Nat.digits`; the `datetime` library behind `format_datetime` is external,
so the renderer takes the date formatter as an explicit parameter. -/

/-- LSB-first decimal digits of a positive number, with explicit fuel so
the definition is structurally recursive. -/
def digitsLEAux : Nat → Nat → List Nat
  | _, 0 => []
  | 0, _ + 1 => []
  | f + 1, m + 1 => (m + 1) % 10 :: digitsLEAux f ((m + 1) / 10)

/-- LSB-first decimal digits, rendering 0 as the single digit 0 (as
`str(0)` does). -/
def natDigitsLE (n : Nat) : List Nat :=
  if n = 0 then [0] else digitsLEAux n n

/-- Interleave thousands separators into an LSB-first digit-char stream:
after every third digit a comma is emitted, provided more digits follow.
`i` counts digits already emitted. -/
def commaSepLE (i : Nat) : List Nat → List Char
  | [] => []
  | d :: ds =>
    if (i + 1) % 3 = 0 ∧ ds ≠ [] then
      Nat.digitChar d :: ',' :: commaSepLE (i + 1) ds
    else
      Nat.digitChar d :: commaSepLE (i + 1) ds

/-- Python `f"{n:,}"` for a natural number. -/
def commaFmtNat (n : Nat) : String :=
  ⟨(commaSepLE 0 (natDigitsLE n)).reverse⟩

/-- Python `f"{i:,}"` for an integer (a leading minus sign for negatives). -/
def commaFmtInt (i : Int) : String :=
  if i < 0 then "-" ++ commaFmtNat i.natAbs else commaFmtNat i.toNat

/-- An option dict as read by `format_receipt_string` (each field via
`.get` with the source's default, `total_price` via a default-less `.get`). -/
structure OptDict where
  name : Option String
  price : Option Int
  quantity : Option Int
  total_price : Option Int
deriving Repr, DecidableEq

/-- An item dict as read by `format_receipt_string`. -/
structure ItemDict where
  order_item_id : Option Int
  name : Option String
  quantity : Option Int
  price : Option Int
  options : List OptDict
deriving Repr, DecidableEq

/-- An order dict as read by `format_receipt_string`. -/
structure OrderDict where
  order_id : Option String
  company_name : Option String
  created_at : Option String
  is_dine_in : Option Bool
  total_price : Option Int
  items : List ItemDict
deriving Repr, DecidableEq

/-- `opt.get("name", "")` (receipt_template.py line 87). -/
def optName (o : OptDict) : String := o.name.getD ""

/-- `opt.get("price", 0)` (line 88). -/
def optPrice (o : OptDict) : Int := o.price.getD 0

/-- `opt.get("quantity", 1)` (line 89). -/
def optQuantity (o : OptDict) : Int := o.quantity.getD 1

/-- The insertion-ordered key set of the `Counter` built on lines 86-92:
one key per distinct option name, in order of first occurrence. -/
def counterKeys (opts : List OptDict) : List String :=
  opts.foldl (fun acc o => if optName o ∈ acc then acc else acc ++ [optName o]) []

/-- `option_counter[opt_name]` after the loop: the sum of the `quantity`
values of all options with that name. -/
def counterCount (opts : List OptDict) (n : String) : Int :=
  (opts.filter (fun o => optName o == n)).foldl (fun a o => a + optQuantity o) 0

/-- `option_prices[opt_name]` after the loop: the price of the last option
with that name (each loop iteration overwrites the entry). -/
def lastPriceOf (opts : List OptDict) (n : String) : Int :=
  ((opts.filter (fun o => optName o == n)).getLast?).elim 0 optPrice

/-- The `opt_total_price` lookup (lines 113-117): the `total_price` of the
first option whose name matches, if any. -/
def firstTotalOf (opts : List OptDict) (n : String) : Option Int :=
  (opts.find? (fun o => optName o == n)).bind (fun o => o.total_price)

/-- One rendered option line (lines 109-130). -/
def optionLine (opts : List OptDict) (n : String) : String :=
  let count := counterCount opts n
  let oPrice := lastPriceOf opts n
  let priceBranch :=
    if oPrice > 0 then
      "  - " ++ n ++ " X " ++ toString count ++ " (+" ++ commaFmtInt oPrice ++ "원)"
    else
      "  - " ++ n
  match firstTotalOf opts n with
  | some t =>
    if t > 0 then
      if count > 1 then
        "  - " ++ n ++ " X " ++ toString count ++ " (+" ++ commaFmtInt t ++ "원)"
      else
        "  - " ++ n ++ " (+" ++ commaFmtInt t ++ "원)"
    else priceBranch
  | none => priceBranch

/-- `str(name)` where `name = item.get("name")`: Python renders a missing
name as the string `None`. -/
def itemDisplayName (it : ItemDict) : String :=
  match it.name with
  | some s => s
  | none => "None"

/-- `item_total = qty * price_per_item` with the renderer's own defaults
`quantity -> 0`, `price -> 0` (lines 79, 96-97). -/
def itemTotal (it : ItemDict) : Int :=
  (it.quantity.getD 0) * (it.price.getD 0)

/-- The lines rendered for one item (lines 76-135). -/
def itemLines (it : ItemDict) : List String :=
  let qty := it.quantity.getD 0
  let pricePerItem := it.price.getD 0
  let nameLine :=
    let base := "상품명: " ++ itemDisplayName it
    match it.order_item_id with
    | some i => if i ≠ 0 then base ++ " (ID:" ++ toString i ++ ")" else base
    | none => base
  let optLines :=
    if (counterKeys it.options).isEmpty then []
    else "  [선택된 옵션]" :: (counterKeys it.options).map (optionLine it.options)
  [nameLine] ++ optLines ++
    ["단가 (옵션포함): " ++ commaFmtInt pricePerItem ++ "원",
     "수량: " ++ toString qty ++ "개",
     "소계: " ++ commaFmtInt (qty * pricePerItem) ++ "원",
     ""]

/-- `total` accumulated across the item loop (lines 75, 98). -/
def computedTotal (items : List ItemDict) : Int :=
  items.foldl (fun a it => a + itemTotal it) 0

/-- `"-" * 20` (lines 71, 137). -/
def sepLine : String := "--------------------"

/-- The footer total line (lines 139-145): the order's own `total_price`
when present and positive, else the accumulated line-subtotal sum. -/
def totalLineOf (order : OrderDict) : String :=
  match order.total_price with
  | some tp =>
    if tp > 0 then "총 금액: " ++ commaFmtInt tp ++ "원"
    else "총 금액: " ++ commaFmtInt (computedTotal order.items) ++ "원"
  | none => "총 금액: " ++ commaFmtInt (computedTotal order.items) ++ "원"

/-- `format_receipt_string` (receipt_template.py lines 35-151), as the list
of lines joined on the final line 151.  `fmtDT` stands for the external
`format_datetime` (a pure `datetime`-library transform). -/
def format_receipt_lines (fmtDT : String → String) (order : OrderDict)
    (receipt_type : String) : List String :=
  let company_name := order.company_name.getD ""
  let order_id := order.order_id.getD ""
  let created_at := order.created_at.getD ""
  let is_dine_in := order.is_dine_in.getD true
  let header :=
    if receipt_type == "kitchen" then "*** 주방 주문서 ***" else "*** 손님 영수증 ***"
  [header, company_name, "",
   "주문번호: " ++ order_id,
   "주문일시: " ++ fmtDT created_at,
   "주문유형:  " ++ (if is_dine_in then "매장 식사" else "포장"),
   "", sepLine]
  ++ (order.items.map itemLines).flatten
  ++ [sepLine, totalLineOf order, "", "감사합니다!", ""]

/-- The joined receipt text (`"\n".join(lines)`). -/
def format_receipt_string (fmtDT : String → String) (order : OrderDict)
    (receipt_type : String) : String :=
  String.intercalate "\n" (format_receipt_lines fmtDT order receipt_type)

/-! ## Parsing the footer total back out of a rendered receipt -/

/-- Read the amount out of a `총 금액` line: collect the decimal digits in
order and negate if a minus sign occurs. -/
def parseWonLine (s : String) : Int :=
  let n : Nat := (s.data.filter Char.isDigit).foldl (fun a c => 10 * a + (c.toNat - 48)) 0
  if '-' ∈ s.data then -(n : Int) else (n : Int)

/-- The footer total line of a rendered receipt: fourth line from the end
(it is followed by exactly a blank line, the thanks line and a blank line). -/
def receiptFooterLine (lines : List String) : Option String :=
  lines.reverse.get? 3

/-- Parse the footer total of a rendered receipt. -/
def parseReceiptTotal (lines : List String) : Option Int :=
  (receiptFooterLine lines).map parseWonLine

/-! ## The two auto-print formatters feeding the renderer -/

/-- A raw item of the order-detail dict handed to `_execute_auto_print`
(each field read by the formatters via `.get`). -/
structure RawItem where
  order_item_id : Option Int
  name : Option String
  quantity : Option Int
  price : Option Int
  options : Option (List OptDict)
deriving Repr, DecidableEq

/-- A raw order-detail dict handed to `_execute_auto_print`. -/
structure RawOrder where
  order_id : Option Int
  company_name : Option String
  created_at : Option String
  is_dine_in : Option Bool
  total_price : Option Int
  items : Option (List RawItem)
deriving Repr, DecidableEq

/-- The `formatted_order` built by the polling monitor's
`_execute_auto_print` (order_monitor.py lines 256-274): it carries
`"total_price": order_data.get("total_price", 0)` and per item the
`order_item_id`. -/
def polling_format_order (od : RawOrder) : OrderDict :=
  { order_id := some (od.order_id.elim "N/A" toString),
    company_name := some (od.company_name.getD "N/A"),
    created_at := some (od.created_at.getD ""),
    is_dine_in := some (od.is_dine_in.getD true),
    total_price := some (od.total_price.getD 0),
    items := (od.items.getD []).map fun it =>
      { order_item_id := it.order_item_id,
        name := some (it.name.getD "N/A"),
        quantity := some (it.quantity.getD 1),
        price := some (it.price.getD 0),
        options := it.options.getD [] } }

/-- The `formatted_order` built by the realtime monitor's
`_execute_auto_print` (supabase_realtime.py lines 336-352): no
`total_price` key and no per-item `order_item_id` key. -/
def realtime_format_order (od : RawOrder) : OrderDict :=
  { order_id := some (od.order_id.elim "N/A" toString),
    company_name := some (od.company_name.getD "N/A"),
    created_at := some (od.created_at.getD ""),
    is_dine_in := some (od.is_dine_in.getD true),
    total_price := none,
    items := (od.items.getD []).map fun it =>
      { order_item_id := none,
        name := some (it.name.getD "N/A"),
        quantity := some (it.quantity.getD 1),
        price := some (it.price.getD 0),
        options := it.options.getD [] } }

/-! ## Hardware sinks (com_printer.py / escpos_printer.py)

The CP949 codec table lives in the Python standard library, so
encodability is an explicit parameter `enc : Char → Bool` (true when the
character is representable in CP949); serial/USB device availability is
likewise passed in as booleans. -/

/-- Which text encoding a sink ended up using for the receipt body. -/
inductive EncodingUsed where
  | cp949
  | utf8
deriving Repr, DecidableEq

/-- `print_receipt_com` (com_printer.py lines 10-70): renders the receipt,
opens the serial port (failure → `False`), encodes the whole text as CP949
and falls back to UTF-8 on encode failure (lines 39-43), writes, and
returns `True`.  The returned pair is (success, encoding used). -/
def print_receipt_com (enc : Char → Bool) (portOpens : Bool)
    (fmtDT : String → String) (order_data : OrderDict) : Bool × EncodingUsed :=
  let receipt_text := format_receipt_string fmtDT order_data "customer"
  let used := if receipt_text.data.all enc then EncodingUsed.cp949 else EncodingUsed.utf8
  (portOpens, used)

/-- Python `line.split('\n')` over the characters of a string (structural,
so kernel-reducible, unlike `String.splitOn`). -/
def splitLinesAux : List Char → List Char → List String
  | [], acc => [String.mk acc.reverse]
  | c :: cs, acc =>
    if c = '\n' then String.mk acc.reverse :: splitLinesAux cs []
    else splitLinesAux cs (c :: acc)

/-- `receipt_text.split('\n')` as done by `print_receipt_esc_usb`. -/
def splitLines (s : String) : List String :=
  splitLinesAux s.data []

/-- `not line.strip()` — a line consisting only of whitespace is skipped
by the ESC/POS line loop without being encoded. -/
def isBlankLine (s : String) : Bool :=
  s.data.all Char.isWhitespace

/-- Environment of `print_receipt_esc_usb`: module import, libusb backend
and USB device availability. -/
structure UsbEnv where
  moduleAvailable : Bool
  backendOk : Bool
  deviceOk : Bool
deriving Repr, DecidableEq

/-- `print_receipt_esc_usb` (escpos_printer.py lines 60-259): renders the
receipt, splits it into lines and encodes each non-blank line with
`line.encode('cp949', errors='strict')` (lines 185, 204); a
`UnicodeEncodeError` is caught at line 240 and the function returns
`False` — there is no UTF-8 fallback on this sink. -/
def print_receipt_esc_usb (enc : Char → Bool) (env : UsbEnv)
    (fmtDT : String → String) (order : OrderDict) : Bool :=
  if !env.moduleAvailable then false
  else if !env.backendOk then false
  else if !env.deviceOk then false
  else
    let receipt_text := format_receipt_string fmtDT order "customer"
    let lines := splitLines receipt_text
    lines.all (fun l => isBlankLine l || l.data.all enc)

/-! ## Cascade delete (optimized_supabase_client.py) -/

/-- The remote relational state visible to the cascade delete: order ids,
order items (order_item_id, order_id) and item options
(order_item_option_id, order_item_id). -/
structure RemoteDB where
  orders : List Int
  items : List (Int × Int)
  options : List (Int × Int)
deriving Repr, DecidableEq

/-- Success/failure of each HTTP request `_delete_order_cascade` makes, in
source order; `_make_request` swallows exceptions and returns `None` on a
failed request (optimized_supabase_client.py lines 120-145). -/
structure CascadeOracle where
  getItemsOk : Bool
  delOptionsOk : Bool
  delItemsOk : Bool
  delOrderOk : Bool
deriving Repr, DecidableEq

/-- The requests `_delete_order_cascade` can emit. -/
inductive CascadeReq where
  | getItems (order_id : Int)
  | delOptions (order_item_ids : List Int)
  | delItems (order_id : Int)
  | delOrder (order_id : Int)
deriving Repr, DecidableEq

/-- `_delete_order_cascade` (optimized_supabase_client.py lines 459-488):
fetch the order's `order_item_id`s; if that returned a non-empty list,
delete the matching `order_item_option` rows; then delete the `order_item`
rows, then the `order` row; return `data is not None` where `data` is the
result of the final order deletion only.  Result: (new remote state,
returned boolean, request trace). -/
def delete_order_cascade (db : RemoteDB) (oracle : CascadeOracle) (order_id : Int) :
    RemoteDB × Bool × List CascadeReq :=
  let order_items_data : Option (List Int) :=
    if oracle.getItemsOk then
      some ((db.items.filter (fun it => it.2 == order_id)).map (·.1))
    else none
  let step1 : RemoteDB × List CascadeReq :=
    match order_items_data with
    | some ids =>
      if ids.isEmpty then (db, [CascadeReq.getItems order_id])
      else
        let db2 :=
          if oracle.delOptionsOk then
            { db with options := db.options.filter (fun o => !(ids.contains o.2)) }
          else db
        (db2, [CascadeReq.getItems order_id, CascadeReq.delOptions ids])
    | none => (db, [CascadeReq.getItems order_id])
  let db3 :=
    if oracle.delItemsOk then
      { step1.1 with items := step1.1.items.filter (fun it => !(it.2 == order_id)) }
    else step1.1
  let db4 :=
    if oracle.delOrderOk then
      { db3 with orders := db3.orders.filter (fun o => !(o == order_id)) }
    else db3
  (db4, oracle.delOrderOk,
    step1.2 ++ [CascadeReq.delItems order_id, CascadeReq.delOrder order_id])

/-- Modelled from the spec: `joinOrderDetail` lives in
`src/database/cache.py`, which is not part of the sources; per §4.1 it
"assembles Order + its OrderItems + each item's OrderOptions into one
denormalized structure; returns absent if the order no longer exists". -/
def joinOrderDetail (db : RemoteDB) (order_id : Int) :
    Option (Int × List (Int × List Int)) :=
  if order_id ∈ db.orders then
    some (order_id,
      (db.items.filter (fun it => it.2 == order_id)).map
        (fun it => (it.1, (db.options.filter (fun o => o.2 == it.1)).map (·.1))))
  else none

/-! ## Printed-status update (order_monitor.py / order_widget.py) -/

/-- Observable effects of `_update_print_status` /
`update_is_printed_status`, in execution order. -/
inductive StatusEff where
  | localWrite (order_id : Int) (is_printed : Bool)
  | remotePatch (order_id : Int) (is_printed : Bool) (succeeded : Bool)
deriving Repr, DecidableEq

/-- A local order table: (order_id, is_printed) rows. -/
abbrev LocalOrders := List (Int × Bool)

/-- The local `UPDATE "order" SET is_printed = ? WHERE order_id = ?`. -/
def localSetPrinted (db : LocalOrders) (order_id : Int) (v : Bool) : LocalOrders :=
  db.map (fun r => if r.1 == order_id then (r.1, v) else r)

/-- `_update_print_status` (order_monitor.py lines 313-341), identical in
structure to `update_is_printed_status` (order_widget.py lines 457-485):
update the local row first; then, if a remote base URL is configured,
attempt the remote patch inside a nested `try` whose failure is logged and
swallowed (the local write is never undone).  The call itself never
fails.  Result: (new local table, effect trace). -/
def update_print_status (db : LocalOrders) (baseUrlSet : Bool) (remotePatchOk : Bool)
    (order_id : Int) (is_printed : Bool) : LocalOrders × List StatusEff :=
  let db2 := localSetPrinted db order_id is_printed
  let effs := [StatusEff.localWrite order_id is_printed] ++
    (if baseUrlSet then [StatusEff.remotePatch order_id is_printed remotePatchOk] else [])
  (db2, effs)

/-! ## Monitor loop wait structure and stop (order_monitor.py lines 44-78) -/

/-- One atomic `time.sleep` of the monitor loop: its duration in seconds
and whether the `_running` flag is checked immediately before it. -/
structure WaitSlice where
  duration : Nat
  checksFlagBefore : Bool
deriving Repr, DecidableEq

/-- The wait slices of one loop iteration.  Normal path (lines 69-72):
`for _ in range(current_interval): if not self._running: break;
time.sleep(1)` — `interval` one-second sleeps, each preceded by a flag
check.  Error-recovery path (lines 74-76): a single `time.sleep(5)` with
no flag check. -/
def iterationWaitSlices (errorPath : Bool) (interval : Nat) : List WaitSlice :=
  if errorPath then [{ duration := 5, checksFlagBefore := false }]
  else List.replicate interval { duration := 1, checksFlagBefore := true }

/-- The longest stretch the loop can sleep without observing a stop
request: the flag is only consulted between atomic sleeps, so this is the
maximum single slice duration. -/
def worstStopLatency (slices : List WaitSlice) : Nat :=
  slices.foldr (fun s acc => max s.duration acc) 0

/-- The two statements of `stop_monitoring` (lines 44-47), in order:
clear `_running`, then `self.wait()` (join the thread). -/
inductive StopEff where
  | setRunningFalse
  | joinThread
deriving Repr, DecidableEq

/-- `stop_monitoring` clears the flag and only then blocks on the join. -/
def stop_monitoring_effects : List StopEff :=
  [StopEff.setRunningFalse, StopEff.joinThread]

/-! ## get_order_by_id (optimized_supabase_client.py lines 418-438) -/

/-- A fully-loaded order as returned by `get_orders_optimized`; only the
fields the lookup logic consults are modelled, `order_id` as the integer
it round-trips through `str`/`int`. -/
structure StoreOrder where
  order_id : Int
  total_price : Int
deriving Repr, DecidableEq

/-- `get_orders_basic(limit, offset)` against a newest-first store: the
server applies `order=created_at.desc`, `limit` and `offset`
(optimized_supabase_client.py lines 188-231; the store list is already
newest-first). -/
def get_orders_basic (store : List StoreOrder) (limit offset : Nat) : List StoreOrder :=
  (store.drop offset).take limit

/-- `get_orders_optimized(limit, offset)` returns the same orders with
details attached; for the lookup logic only the basic rows matter
(lines 345-412). -/
def get_orders_optimized (store : List StoreOrder) (limit offset : Nat) : List StoreOrder :=
  get_orders_basic store limit offset

/-- `get_order_by_id` (lines 418-438): look for the id among
`get_orders_optimized(limit=1, offset=0)`; if absent, scan
`get_orders_basic(limit=100)` and, when the id occurs there, return
`get_orders_optimized(limit=1, offset=0)[0]` — the newest order — rather
than the matched order's detail; else `None`. -/
def get_order_by_id (store : List StoreOrder) (order_id : Int) : Option StoreOrder :=
  let orders := get_orders_optimized store 1 0
  match orders.find? (fun o => o.order_id == order_id) with
  | some o => some o
  | none =>
    let orders_basic := get_orders_basic store 100 0
    if orders_basic.any (fun o => o.order_id == order_id) then
      (get_orders_optimized store 1 0).head?
    else none

/-! ## Concrete fixtures used by counterexamples and witnesses -/

/-- A CP949-encodability model that rejects exactly the emoji U+1F600
(which the real CP949 code page cannot represent; every other character
appearing in the fixtures below is CP949-representable). -/
def enc_no_emoji : Char → Bool := fun c => c != '😀'

/-- An order whose company name contains a character outside CP949. -/
def order_with_emoji : OrderDict :=
  { order_id := some "9", company_name := some "카페😀", created_at := some "",
    is_dine_in := some true, total_price := some 1000, items := [] }

/-- Remote state for the cascade fixtures: order 55 with one item (id 7)
carrying two options (ids 1 and 2). -/
def cascade_db_ex : RemoteDB :=
  { orders := [55], items := [(7, 55)], options := [(1, 7), (2, 7)] }

/-- Oracle where only the option deletion fails. -/
def cascade_oracle_optsfail : CascadeOracle :=
  { getItemsOk := true, delOptionsOk := false, delItemsOk := true, delOrderOk := true }

/-- Oracle where every request succeeds. -/
def cascade_oracle_allok : CascadeOracle :=
  { getItemsOk := true, delOptionsOk := true, delItemsOk := true, delOrderOk := true }

/-- A two-order store, newest first: order 2 is newest, order 1 older. -/
def store_two_orders : List StoreOrder :=
  [{ order_id := 2, total_price := 100 }, { order_id := 1, total_price := 50 }]

/-! ## Round-trip lemmas for the thousands-separated rendering -/

lemma ofDigits_digitsLEAux (fuel : Nat) :
    ∀ n : Nat, n ≤ fuel → Nat.ofDigits 10 (digitsLEAux fuel n) = n := by
  induction fuel with
  | zero =>
    intro n h
    have hn : n = 0 := Nat.le_zero.mp h
    subst hn
    simp [digitsLEAux]
  | succ f ih =>
    intro n h
    match n with
    | 0 => simp [digitsLEAux]
    | m + 1 =>
      have hdiv : (m + 1) / 10 ≤ f := by
        have := Nat.div_lt_self (Nat.succ_pos m) (by norm_num : 1 < 10)
        omega
      have hih := ih ((m + 1) / 10) hdiv
      simp only [digitsLEAux, Nat.ofDigits_cons, hih]
      omega

lemma digitsLEAux_lt (fuel : Nat) :
    ∀ n : Nat, ∀ d ∈ digitsLEAux fuel n, d < 10 := by
  induction fuel with
  | zero =>
    intro n d hd
    match n with
    | 0 => simp [digitsLEAux] at hd
    | m + 1 => simp [digitsLEAux] at hd
  | succ f ih =>
    intro n d hd
    match n with
    | 0 => simp [digitsLEAux] at hd
    | m + 1 =>
      simp only [digitsLEAux, List.mem_cons] at hd
      rcases hd with h | h
      · subst h
        exact Nat.mod_lt _ (by norm_num)
      · exact ih _ d h

lemma ofDigits_natDigitsLE (n : Nat) : Nat.ofDigits 10 (natDigitsLE n) = n := by
  unfold natDigitsLE
  split
  · rename_i h
    subst h
    simp [Nat.ofDigits]
  · exact ofDigits_digitsLEAux n n le_rfl

lemma natDigitsLE_lt (n : Nat) : ∀ d ∈ natDigitsLE n, d < 10 := by
  unfold natDigitsLE
  split
  · intro d hd
    simp at hd
    omega
  · exact digitsLEAux_lt n n

lemma isDigit_digitChar (d : Nat) (h : d < 10) : (Nat.digitChar d).isDigit = true := by
  interval_cases d <;> decide

lemma toNat_digitChar (d : Nat) (h : d < 10) : (Nat.digitChar d).toNat - 48 = d := by
  interval_cases d <;> decide

lemma digitChar_ne_dash (d : Nat) (h : d < 10) : Nat.digitChar d ≠ '-' := by
  interval_cases d <;> decide

lemma mem_commaSepLE (i : Nat) (ds : List Nat) (c : Char) :
    c ∈ commaSepLE i ds → c = ',' ∨ ∃ d ∈ ds, c = Nat.digitChar d := by
  induction ds generalizing i with
  | nil => simp [commaSepLE]
  | cons d ds ih =>
    intro hc
    simp only [commaSepLE] at hc
    split at hc
    · rcases List.mem_cons.mp hc with h | hc2
      · exact Or.inr ⟨d, List.mem_cons_self .., h⟩
      rcases List.mem_cons.mp hc2 with h | hc3
      · exact Or.inl h
      rcases ih (i + 1) hc3 with h | ⟨e, he, h⟩
      · exact Or.inl h
      · exact Or.inr ⟨e, List.mem_cons_of_mem _ he, h⟩
    · rcases List.mem_cons.mp hc with h | hc2
      · exact Or.inr ⟨d, List.mem_cons_self .., h⟩
      rcases ih (i + 1) hc2 with h | ⟨e, he, h⟩
      · exact Or.inl h
      · exact Or.inr ⟨e, List.mem_cons_of_mem _ he, h⟩

lemma filter_commaSepLE (i : Nat) (ds : List Nat) (h : ∀ d ∈ ds, d < 10) :
    (commaSepLE i ds).filter Char.isDigit = ds.map Nat.digitChar := by
  induction ds generalizing i with
  | nil => simp [commaSepLE]
  | cons d ds ih =>
    have hd : d < 10 := h d (List.mem_cons_self ..)
    have hrest : ∀ x ∈ ds, x < 10 := fun x hx => h x (List.mem_cons_of_mem _ hx)
    simp only [commaSepLE]
    split
    · simp [List.filter_cons, isDigit_digitChar d hd, ih (i + 1) hrest,
        (by decide : (','.isDigit) = false)]
    · simp [List.filter_cons, isDigit_digitChar d hd, ih (i + 1) hrest]

lemma foldr_decimal (ds : List Nat) (h : ∀ d ∈ ds, d < 10) :
    ds.foldr (fun d a => 10 * a + ((Nat.digitChar d).toNat - 48)) 0 = Nat.ofDigits 10 ds := by
  induction ds with
  | nil => simp
  | cons d ds ih =>
    have hd : d < 10 := h d (List.mem_cons_self ..)
    rw [List.foldr_cons, ih (fun x hx => h x (List.mem_cons_of_mem _ hx)),
      toNat_digitChar d hd, Nat.ofDigits_cons]
    omega

lemma parse_commaFmtNat (n : Nat) :
    ((commaFmtNat n).data.filter Char.isDigit).foldl (fun a c => 10 * a + (c.toNat - 48)) 0 = n := by
  show ((commaSepLE 0 (natDigitsLE n)).reverse.filter Char.isDigit).foldl
    (fun a c => 10 * a + (c.toNat - 48)) 0 = n
  rw [List.filter_reverse, filter_commaSepLE 0 (natDigitsLE n) (natDigitsLE_lt n),
    List.foldl_reverse, List.foldr_map]
  exact (foldr_decimal (natDigitsLE n) (natDigitsLE_lt n)).trans (ofDigits_natDigitsLE n)

lemma dash_not_mem_commaFmtNat (n : Nat) : '-' ∉ (commaFmtNat n).data := by
  show '-' ∉ (commaSepLE 0 (natDigitsLE n)).reverse
  rw [List.mem_reverse]
  intro h
  rcases mem_commaSepLE 0 (natDigitsLE n) '-' h with h | ⟨d, hd, h⟩
  · exact absurd h (by decide)
  · exact digitChar_ne_dash d (natDigitsLE_lt n d hd) h.symm

/-- The parse of a rendered `총 금액` line recovers the rendered amount. -/
lemma parseWonLine_won (t : Int) :
    parseWonLine ("총 금액: " ++ commaFmtInt t ++ "원") = t := by
  unfold parseWonLine commaFmtInt
  by_cases h : t < 0
  · rw [if_pos h]
    simp only [String.data_append]
    have hmem : '-' ∈ ("총 금액: ".data ++ (("-" : String).data ++ (commaFmtNat t.natAbs).data) ++ ("원" : String).data) := by
      apply List.mem_append_left
      apply List.mem_append_right
      apply List.mem_append_left
      decide
    rw [if_pos hmem]
    simp only [List.filter_append]
    have h1 : ("총 금액: ".data.filter Char.isDigit) = [] := by decide
    have h2 : (("원" : String).data.filter Char.isDigit) = [] := by decide
    have h3 : (("-" : String).data.filter Char.isDigit) = [] := by decide
    rw [h1, h2, h3]
    simp only [List.nil_append, List.append_nil]
    rw [parse_commaFmtNat t.natAbs]
    omega
  · rw [if_neg h]
    simp only [String.data_append]
    have hmem : '-' ∉ ("총 금액: ".data ++ (commaFmtNat t.toNat).data ++ ("원" : String).data) := by
      intro hin
      rcases List.mem_append.mp hin with hin2 | hin2
      · rcases List.mem_append.mp hin2 with hin3 | hin3
        · exact absurd hin3 (by decide)
        · exact dash_not_mem_commaFmtNat t.toNat hin3
      · exact absurd hin2 (by decide)
    rw [if_neg hmem]
    simp only [List.filter_append]
    have h1 : ("총 금액: ".data.filter Char.isDigit) = [] := by decide
    have h2 : (("원" : String).data.filter Char.isDigit) = [] := by decide
    rw [h1, h2]
    simp only [List.nil_append, List.append_nil]
    rw [parse_commaFmtNat t.toNat]
    omega

/-- The footer-total line of any rendered receipt is the `totalLineOf` the
order: it sits fourth from the end of the line list. -/
lemma receiptFooterLine_format (fmtDT : String → String) (o : OrderDict) (rt : String) :
    receiptFooterLine (format_receipt_lines fmtDT o rt) = some (totalLineOf o) := by
  unfold receiptFooterLine format_receipt_lines
  simp

/-- Parsing the footer of any rendered receipt yields the `parseWonLine` of
its `totalLineOf`. -/
lemma parseReceiptTotal_format (fmtDT : String → String) (o : OrderDict) (rt : String) :
    parseReceiptTotal (format_receipt_lines fmtDT o rt) = some (parseWonLine (totalLineOf o)) := by
  unfold parseReceiptTotal
  rw [receiptFooterLine_format]
  rfl

/-! ## Claim theorems -/

/-- C1 counterexample: in the polling monitor, an order whose customer
sink failed but whose kitchen sink succeeded is reduced to overall success
and is marked printed, contradicting "success exactly when the customer
sink succeeds". -/
theorem polling_outcome_counterexample :
    polling_marks_printed { customer := false, kitchen := true } = true
    ∧ ({ customer := false, kitchen := true } : PrintResults).customer = false := by
  decide

/-- C1 (amended): the realtime monitor's reduced outcome is success exactly
when the customer sink succeeds, but the polling monitor's reduced outcome
is success when at least one of the two sinks succeeds (so there a
customer-sink failure alone does not make the outcome a failure); each
monitor marks the order printed exactly on its own reduced success, and
the per-sink results are carried individually in the dispatcher's result
map. -/
theorem auto_print_outcome_reduction (r : PrintResults) :
    realtime_overall_success r = r.customer
    ∧ polling_overall_success r = (r.customer || r.kitchen)
    ∧ realtime_marks_printed r = realtime_overall_success r
    ∧ polling_marks_printed r = polling_overall_success r :=
  ⟨rfl, rfl, rfl, rfl⟩

/-- C2 counterexample: with the default parameters and auto-print enabled
(base 3, slow 30) the computed interval after 10 empty checks is 8 but
after 11 it is min 30 6 = 6, so it is not non-decreasing; and with
auto-print disabled and a base of 50, after 11 empty checks the interval
is 30, below the base floor. -/
theorem dynamic_interval_counterexample :
    calculate_dynamic_interval defaultParams true 10 = 8
    ∧ calculate_dynamic_interval defaultParams true 11 = 6
    ∧ ¬ calculate_dynamic_interval defaultParams true 10 ≤
        calculate_dynamic_interval defaultParams true 11
    ∧ calculate_dynamic_interval { defaultParams with check_interval := 50 } false 11 = 30
    ∧ base_interval { defaultParams with check_interval := 50 } false = 50 := by
  decide

/-- C2 (amended): the computed interval is the base for at most 5
consecutive empty checks, base + 5 for 6 to 10, and min slow (2·base)
beyond 10 — hence capped by the slow interval beyond 10, non-decreasing
only up to 10 empty checks, and at or above the base floor beyond 10 only
when the base is non-negative and at most the slow interval; a tick that
finds orders resets the counter to 0, snapping the next interval back to
the base. -/
theorem dynamic_interval_behavior (p : MonitorParams) (auto : Bool) (n : Nat) :
    (n ≤ 5 → calculate_dynamic_interval p auto n = base_interval p auto)
    ∧ (5 < n → n ≤ 10 → calculate_dynamic_interval p auto n = base_interval p auto + 5)
    ∧ (10 < n → calculate_dynamic_interval p auto n
        = min p.slow_check_interval (base_interval p auto * 2))
    ∧ (10 < n → calculate_dynamic_interval p auto n ≤ p.slow_check_interval)
    ∧ (10 < n → 0 ≤ base_interval p auto →
        base_interval p auto ≤ p.slow_check_interval →
        base_interval p auto ≤ calculate_dynamic_interval p auto n)
    ∧ (∀ m, m ≤ n → n ≤ 10 →
        calculate_dynamic_interval p auto m ≤ calculate_dynamic_interval p auto n)
    ∧ update_empty_checks true n = 0
    ∧ calculate_dynamic_interval p auto 0 = base_interval p auto := by
  have hcalc : ∀ k : Nat, calculate_dynamic_interval p auto k =
      if k > 10 then min p.slow_check_interval (base_interval p auto * 2)
      else if k > 5 then base_interval p auto + 5
      else base_interval p auto := fun k => rfl
  refine ⟨?_, ?_, ?_, ?_, ?_, ?_, rfl, ?_⟩
  · intro h
    rw [hcalc, if_neg (by omega), if_neg (by omega)]
  · intro h1 h2
    rw [hcalc, if_neg (by omega), if_pos h1]
  · intro h
    rw [hcalc, if_pos h]
  · intro h
    rw [hcalc, if_pos h]
    exact min_le_left _ _
  · intro h h0 hs
    rw [hcalc, if_pos h]
    exact le_min hs (by omega)
  · intro m hm hn
    have hle10 : ∀ k : Nat, k ≤ 10 → calculate_dynamic_interval p auto k =
        if k > 5 then base_interval p auto + 5 else base_interval p auto := by
      intro k hk
      rw [hcalc, if_neg (by omega)]
    rw [hle10 m (by omega), hle10 n hn]
    split_ifs <;> omega
  · rw [hcalc, if_neg (by omega), if_neg (by omega)]

/-- C3 counterexample: when the option-row deletion request fails but the
final order deletion succeeds, `_delete_order_cascade` still returns true
while the two option rows survive — so true is not "only if all of the
deletions succeed". -/
theorem cascade_delete_counterexample :
    (delete_order_cascade cascade_db_ex cascade_oracle_optsfail 55).2.1 = true
    ∧ (delete_order_cascade cascade_db_ex cascade_oracle_optsfail 55).1.options
        = [(1, 7), (2, 7)] := by
  decide

/-- C3 (amended): the cascade issues, in order, the item-id fetch, the
OrderOption deletion (when the fetch succeeded and found items), the
OrderItem deletion and the Order deletion, but its boolean result equals
the success of the final Order-row request alone (earlier failures are
logged and swallowed by `_make_request`); whenever the Order-row deletion
succeeded, a subsequent detail lookup for that order returns absent. -/
theorem cascade_delete_behavior (db : RemoteDB) (oracle : CascadeOracle) (oid : Int) :
    (delete_order_cascade db oracle oid).2.1 = oracle.delOrderOk
    ∧ (oracle.getItemsOk = true →
        ((db.items.filter (fun it => it.2 == oid)).map (·.1)) ≠ [] →
        (delete_order_cascade db oracle oid).2.2
          = [CascadeReq.getItems oid,
             CascadeReq.delOptions ((db.items.filter (fun it => it.2 == oid)).map (·.1)),
             CascadeReq.delItems oid, CascadeReq.delOrder oid])
    ∧ (oracle.delOrderOk = true →
        joinOrderDetail (delete_order_cascade db oracle oid).1 oid = none) := by
  refine ⟨rfl, ?_, ?_⟩
  · intro hg hne
    have hie : ((db.items.filter (fun it => it.2 == oid)).map (·.1)).isEmpty = false := by
      cases h : (db.items.filter (fun it => it.2 == oid)).map (·.1) with
      | nil => exact absurd h hne
      | cons a l => rfl
    simp [delete_order_cascade, hg, hie]
  · intro ho
    have hfilter : ∀ l : List Int, oid ∉ l.filter (fun o => !(o == oid)) := by
      intro l hmem
      have h2 := (List.mem_filter.mp hmem).2
      simp at h2
    simp only [delete_order_cascade, joinOrderDetail, ho, if_true]
    rw [if_neg (hfilter _)]

/-- C3 witness: the full cascade on order 55 with every request
succeeding — the exact request order and the absent follow-up lookup. -/
theorem cascade_delete_behavior_witness :
    (delete_order_cascade cascade_db_ex cascade_oracle_allok 55).2.1 = true
    ∧ (delete_order_cascade cascade_db_ex cascade_oracle_allok 55).2.2
        = [CascadeReq.getItems 55, CascadeReq.delOptions [7],
           CascadeReq.delItems 55, CascadeReq.delOrder 55]
    ∧ joinOrderDetail (delete_order_cascade cascade_db_ex cascade_oracle_allok 55).1 55
        = none := by
  refine ⟨(cascade_delete_behavior cascade_db_ex cascade_oracle_allok 55).1, ?_,
    (cascade_delete_behavior cascade_db_ex cascade_oracle_allok 55).2.2 rfl⟩
  have h := (cascade_delete_behavior cascade_db_ex cascade_oracle_allok 55).2.1 rfl
    (by decide)
  simpa [cascade_db_ex] using h

/-- C4: the printed-status update writes the local flag first (the local
write is the first effect and its result does not depend on the remote
outcome), the remote patch is attempted only after it, and a remote-patch
failure neither fails the call nor undoes the local write. -/
theorem update_print_status_behavior (db : LocalOrders) (baseUrlSet remotePatchOk : Bool)
    (oid : Int) (v : Bool) :
    (∀ r ∈ (update_print_status db baseUrlSet remotePatchOk oid v).1, r.1 = oid → r.2 = v)
    ∧ ((update_print_status db baseUrlSet remotePatchOk oid v).2).head?
        = some (StatusEff.localWrite oid v)
    ∧ (update_print_status db baseUrlSet true oid v).1
        = (update_print_status db baseUrlSet false oid v).1
    ∧ (baseUrlSet = true → (update_print_status db baseUrlSet remotePatchOk oid v).2
        = [StatusEff.localWrite oid v, StatusEff.remotePatch oid v remotePatchOk]) := by
  refine ⟨?_, rfl, rfl, ?_⟩
  · intro r hr hoid
    have hr2 : r ∈ db.map (fun r0 => if r0.1 == oid then (r0.1, v) else r0) := hr
    obtain ⟨r0, hr0, hre⟩ := List.mem_map.mp hr2
    by_cases h : (r0.1 == oid) = true
    · rw [if_pos h] at hre
      rw [← hre]
    · rw [if_neg h] at hre
      subst hre
      exact absurd (by simp [hoid]) h
  · intro hb
    simp [update_print_status, hb]

/-- C4 witness: updating order 5 with the remote patch failing still sets
the local flag and records the local write before the failed patch. -/
theorem update_print_status_behavior_witness :
    (((5 : Int), true) ∈ (update_print_status [((5 : Int), false)] true false 5 true).1
      ∧ ((5 : Int), true).2 = true)
    ∧ (update_print_status [((5 : Int), false)] true false 5 true).2
        = [StatusEff.localWrite 5 true, StatusEff.remotePatch 5 true false] := by
  refine ⟨⟨by decide, ?_⟩,
    (update_print_status_behavior [((5 : Int), false)] true false 5 true).2.2.2 rfl⟩
  exact (update_print_status_behavior [((5 : Int), false)] true false 5 true).1
    (5, true) (by decide) rfl

/-- C5 counterexample: a receipt containing a character outside the code
page makes the ESC/POS USB sink return failure (no UTF-8 fallback there),
while the COM serial sink falls back to UTF-8 and still succeeds. -/
theorem escpos_no_fallback_counterexample :
    (format_receipt_string id order_with_emoji "customer").data.all enc_no_emoji = false
    ∧ print_receipt_esc_usb enc_no_emoji
        { moduleAvailable := true, backendOk := true, deviceOk := true }
        id order_with_emoji = false
    ∧ (print_receipt_com enc_no_emoji true id order_with_emoji).1 = true
    ∧ (print_receipt_com enc_no_emoji true id order_with_emoji).2 = EncodingUsed.utf8 := by
  decide

/-- C5 (amended): the COM serial sink's success is independent of
encodability and it falls back to UTF-8 whenever the rendered text is not
fully CP949-encodable; the ESC/POS USB sink, by contrast, returns failure
whenever any non-blank rendered line fails the strict CP949 encode. -/
theorem sink_encoding_behavior (enc : Char → Bool) (portOpens : Bool) (env : UsbEnv)
    (fmtDT : String → String) (od : OrderDict) :
    (print_receipt_com enc portOpens fmtDT od).1 = portOpens
    ∧ ((format_receipt_string fmtDT od "customer").data.all enc = false →
        (print_receipt_com enc portOpens fmtDT od).2 = EncodingUsed.utf8)
    ∧ (env.moduleAvailable = true → env.backendOk = true → env.deviceOk = true →
        ∀ l ∈ splitLines (format_receipt_string fmtDT od "customer"),
          isBlankLine l = false → l.data.all enc = false →
          print_receipt_esc_usb enc env fmtDT od = false) := by
  refine ⟨rfl, ?_, ?_⟩
  · intro h
    simp [print_receipt_com, h]
  · intro hm hb hd l hl hblank henc
    unfold print_receipt_esc_usb
    rw [hm, hb, hd]
    simp only [Bool.not_true, Bool.false_eq_true, if_false]
    rw [List.all_eq_false]
    exact ⟨l, hl, by simp [hblank, henc]⟩

/-- C5 witness: the amended behavior at the emoji fixture — COM uses the
UTF-8 fallback, ESC/POS fails on the company-name line. -/
theorem sink_encoding_behavior_witness :
    (print_receipt_com enc_no_emoji true id order_with_emoji).2 = EncodingUsed.utf8
    ∧ print_receipt_esc_usb enc_no_emoji
        { moduleAvailable := true, backendOk := true, deviceOk := true }
        id order_with_emoji = false :=
  ⟨(sink_encoding_behavior enc_no_emoji true
      { moduleAvailable := true, backendOk := true, deviceOk := true }
      id order_with_emoji).2.1 (by decide),
   (sink_encoding_behavior enc_no_emoji true
      { moduleAvailable := true, backendOk := true, deviceOk := true }
      id order_with_emoji).2.2 rfl rfl rfl "카페😀" (by decide) (by decide) (by decide)⟩

/-- C6: whenever the order's recorded total_price is present and positive,
the rendered receipt's footer carries exactly that amount — parsing the
footer total back out reproduces it; the fallback footer equal to the sum
of computed line subtotals occurs only when total_price is absent or
non-positive. -/
theorem receipt_total_roundtrip (fmtDT : String → String) (o : OrderDict) (rt : String) :
    (∀ tp : Int, o.total_price = some tp → 0 < tp →
      parseReceiptTotal (format_receipt_lines fmtDT o rt) = some tp)
    ∧ (o.total_price = none ∨ (∃ tp, o.total_price = some tp ∧ tp ≤ 0) →
      parseReceiptTotal (format_receipt_lines fmtDT o rt)
        = some (computedTotal o.items)) := by
  constructor
  · intro tp htp hpos
    rw [parseReceiptTotal_format]
    have hline : totalLineOf o = "총 금액: " ++ commaFmtInt tp ++ "원" := by
      unfold totalLineOf
      rw [htp]
      simp [hpos]
    rw [hline]
    exact congrArg some (parseWonLine_won tp)
  · intro hcase
    rw [parseReceiptTotal_format]
    have hline : totalLineOf o
        = "총 금액: " ++ commaFmtInt (computedTotal o.items) ++ "원" := by
      unfold totalLineOf
      rcases hcase with hnone | ⟨tp, htp, hle⟩
      · rw [hnone]
      · rw [htp]
        simp [not_lt.mpr hle]
    rw [hline]
    exact congrArg some (parseWonLine_won _)

/-- C6 witness: a receipt with recorded total 15000 parses back to 15000;
one with no recorded total parses back to the computed line sum 6000. -/
theorem receipt_total_roundtrip_witness :
    parseReceiptTotal (format_receipt_lines id
      { order_id := some "101", company_name := some "회사", created_at := some "",
        is_dine_in := some true, total_price := some 15000, items := [] } "customer")
      = some 15000
    ∧ parseReceiptTotal (format_receipt_lines id
      { order_id := some "102", company_name := some "회사", created_at := some "",
        is_dine_in := some true, total_price := none,
        items := [{ order_item_id := none, name := some "아메리카노",
                    quantity := some 2, price := some 3000, options := [] }] } "customer")
      = some 6000 := by
  constructor
  · exact (receipt_total_roundtrip id
      { order_id := some "101", company_name := some "회사", created_at := some "",
        is_dine_in := some true, total_price := some 15000, items := [] } "customer").1
      15000 rfl (by decide)
  · have h := (receipt_total_roundtrip id
      { order_id := some "102", company_name := some "회사", created_at := some "",
        is_dine_in := some true, total_price := none,
        items := [{ order_item_id := none, name := some "아메리카노",
                    quantity := some 2, price := some 3000, options := [] }] } "customer").2
      (Or.inl rfl)
    simpa [computedTotal, itemTotal] using h

/-- C7 counterexample: the error-recovery path of the monitor loop sleeps
in a single 5-second slice with no flag check, so the running flag is not
observed at sub-second granularity there and a stop can take about 5
seconds to be honored. -/
theorem stop_latency_counterexample :
    worstStopLatency (iterationWaitSlices true 30) = 5
    ∧ ¬ worstStopLatency (iterationWaitSlices true 30) ≤ 1
    ∧ (iterationWaitSlices true 30).all (fun s => s.checksFlagBefore) = false := by
  decide

/-- C7 (amended): in the normal interval wait every slice is a 1-second
sleep preceded by a flag check, so a stop is honored within about one
second there; the error-recovery path sleeps 5 seconds unchecked, bounding
stop latency by about 5 seconds instead; `stop_monitoring` clears the
running flag and only then joins the loop thread. -/
theorem monitor_wait_structure (interval : Nat) :
    (∀ s ∈ iterationWaitSlices false interval, s.duration = 1 ∧ s.checksFlagBefore = true)
    ∧ worstStopLatency (iterationWaitSlices false interval) ≤ 1
    ∧ worstStopLatency (iterationWaitSlices true interval) = 5
    ∧ stop_monitoring_effects = [StopEff.setRunningFalse, StopEff.joinThread] := by
  refine ⟨?_, ?_, rfl, rfl⟩
  · intro s hs
    have h : s = { duration := 1, checksFlagBefore := true } :=
      List.eq_of_mem_replicate hs
    subst h
    exact ⟨rfl, rfl⟩
  · show worstStopLatency (List.replicate interval { duration := 1, checksFlagBefore := true }) ≤ 1
    induction interval with
    | zero => decide
    | succ k ih =>
      rw [List.replicate_succ]
      unfold worstStopLatency at ih ⊢
      simpa using ih

/-- C7 witness: the wait structure at a 3-second configured interval. -/
theorem monitor_wait_structure_witness :
    (({ duration := 1, checksFlagBefore := true } : WaitSlice) ∈ iterationWaitSlices false 3
      ∧ ({ duration := 1, checksFlagBefore := true } : WaitSlice).duration = 1)
    ∧ worstStopLatency (iterationWaitSlices false 3) ≤ 1
    ∧ worstStopLatency (iterationWaitSlices true 3) = 5 :=
  ⟨⟨by decide, ((monitor_wait_structure 3).1 _ (by decide)).1⟩,
   (monitor_wait_structure 3).2.1, (monitor_wait_structure 3).2.2.1⟩

/-- C8: whatever interval is requested, including zero and negatives, the
effective check interval set by `set_check_interval` is at least the
3-second floor. -/
theorem set_check_interval_floor (x : Int) : 3 ≤ set_check_interval x :=
  le_max_left 3 x

/-- C9: the realtime monitor formats orders without a total_price field,
so its rendered receipt's footer always parses to the computed sum of line
subtotals, whereas the polling monitor's formatting keeps the stored
total_price and (when positive) that value becomes the footer total. -/
theorem realtime_receipt_total (fmtDT : String → String) (od : RawOrder) (rt : String) :
    parseReceiptTotal (format_receipt_lines fmtDT (realtime_format_order od) rt)
      = some (computedTotal (realtime_format_order od).items)
    ∧ (∀ tp : Int, od.total_price = some tp → 0 < tp →
        parseReceiptTotal (format_receipt_lines fmtDT (polling_format_order od) rt)
          = some tp) := by
  constructor
  · rw [parseReceiptTotal_format]
    have hline : totalLineOf (realtime_format_order od)
        = "총 금액: " ++ commaFmtInt (computedTotal (realtime_format_order od).items)
            ++ "원" := rfl
    rw [hline]
    exact congrArg some (parseWonLine_won _)
  · intro tp htp hpos
    rw [parseReceiptTotal_format]
    have hstp : (polling_format_order od).total_price = some tp := by
      simp [polling_format_order, htp]
    have hline : totalLineOf (polling_format_order od)
        = "총 금액: " ++ commaFmtInt tp ++ "원" := by
      unfold totalLineOf
      rw [hstp]
      simp [hpos]
    rw [hline]
    exact congrArg some (parseWonLine_won tp)

/-- C9 witness: one raw order (stored total 5000, single 1000-won line):
the realtime-formatted receipt's footer is the computed 1000, the
polling-formatted receipt's footer is the stored 5000. -/
theorem realtime_receipt_total_witness :
    parseReceiptTotal (format_receipt_lines id (realtime_format_order
      { order_id := some 7, company_name := some "회사", created_at := some "",
        is_dine_in := some true, total_price := some 5000,
        items := some [{ order_item_id := some 1, name := some "버거",
                         quantity := some 1, price := some 1000,
                         options := some [] }] }) "customer") = some 1000
    ∧ parseReceiptTotal (format_receipt_lines id (polling_format_order
      { order_id := some 7, company_name := some "회사", created_at := some "",
        is_dine_in := some true, total_price := some 5000,
        items := some [{ order_item_id := some 1, name := some "버거",
                         quantity := some 1, price := some 1000,
                         options := some [] }] }) "customer") = some 5000 := by
  constructor
  · have h := (realtime_receipt_total id
      { order_id := some 7, company_name := some "회사", created_at := some "",
        is_dine_in := some true, total_price := some 5000,
        items := some [{ order_item_id := some 1, name := some "버거",
                         quantity := some 1, price := some 1000,
                         options := some [] }] } "customer").1
    simpa [realtime_format_order, computedTotal, itemTotal] using h
  · exact (realtime_receipt_total id
      { order_id := some 7, company_name := some "회사", created_at := some "",
        is_dine_in := some true, total_price := some 5000,
        items := some [{ order_item_id := some 1, name := some "버거",
                         quantity := some 1, price := some 1000,
                         options := some [] }] } "customer").2 5000 rfl (by decide)

/-- C10: in the two-order store where the requested id 1 exists but is not
the newest order, `get_order_by_id` returns the newest order (id 2) —
an order whose id differs from the requested one — rather than the
requested order or absent. -/
theorem get_order_by_id_wrong_order :
    get_order_by_id store_two_orders 1 = some { order_id := 2, total_price := 100 }
    ∧ ({ order_id := 2, total_price := 100 } : StoreOrder).order_id ≠ 1
    ∧ store_two_orders.any (fun o => o.order_id == 1) = true := by
  decide

/-- C2 witness: the amended behavior evaluated at the default parameters
with auto-print enabled. -/
theorem dynamic_interval_behavior_witness :
    calculate_dynamic_interval defaultParams true 3 = 3
    ∧ calculate_dynamic_interval defaultParams true 7 = 8
    ∧ calculate_dynamic_interval defaultParams true 12 = 6
    ∧ calculate_dynamic_interval defaultParams true 12 ≤ 30
    ∧ (3 : Int) ≤ calculate_dynamic_interval defaultParams true 12
    ∧ calculate_dynamic_interval defaultParams true 4 ≤
        calculate_dynamic_interval defaultParams true 9
    ∧ update_empty_checks true 9 = 0
    ∧ calculate_dynamic_interval defaultParams true 0 = 3 :=
  ⟨(dynamic_interval_behavior defaultParams true 3).1 (by decide),
   (dynamic_interval_behavior defaultParams true 7).2.1 (by decide) (by decide),
   (dynamic_interval_behavior defaultParams true 12).2.2.1 (by decide),
   (dynamic_interval_behavior defaultParams true 12).2.2.2.1 (by decide),
   (dynamic_interval_behavior defaultParams true 12).2.2.2.2.1 (by decide) (by decide) (by decide),
   (dynamic_interval_behavior defaultParams true 9).2.2.2.2.2.1 4 (by decide) (by decide),
   (dynamic_interval_behavior defaultParams true 9).2.2.2.2.2.2.1,
   (dynamic_interval_behavior defaultParams true 0).2.2.2.2.2.2.2⟩

end PosPrinter
